import Mathlib

/-!
Shallow embedding of the ScamShield bot decision core (src/app.py):
the rule-based risk scorer, the ambiguous-band AI-fallback policy, the
premium entitlement store and the daily usage quota.

Message text is modelled as a list of characters; the regex checks of
the scorer are translated to explicit scans (every regex pattern in the
source is a literal alternation or a simple character-class construct).
Clock reads (datetime.utcnow, date.today) and the environment-configured
DAILY_LIMIT become explicit parameters; the SQLite users table and the
JSON usage file become finite maps from user id to record.  Timestamps
are naturals counting seconds, so timedelta(days=d) is d * 86400.
-/

namespace ScamShield

abbrev Str := List Char

/-- Python str.lower, applied character-wise. -/
def lower (s : Str) : Str := s.map Char.toLower

/-- Python str.strip: remove leading and trailing whitespace. -/
def stripCh (s : Str) : Str :=
  ((s.dropWhile Char.isWhitespace).reverse.dropWhile Char.isWhitespace).reverse

/-- re.search of a literal pattern: the pattern occurs as a contiguous
substring of the haystack. -/
def containsKw (hay : Str) (pat : Str) : Bool :=
  match hay with
  | [] => pat.isEmpty
  | _ :: t => pat.isPrefixOf hay || containsKw t pat

/-- re.search of a position-wise matcher anywhere in the text. -/
def searchAt (p : Str → Bool) (cs : Str) : Bool := cs.tails.any p

-- ---------------- storage (users table, usage file) ----------------

/-- A stored premium_until TEXT value: either one datetime.fromisoformat
parses (to a timestamp), or one it raises on. -/
inductive StoredTs where
  | parsed (t : Nat)
  | malformed (raw : String)
deriving DecidableEq

/-- One row of the users table: is_premium INTEGER (as Bool),
premium_until TEXT (none models NULL). -/
structure UserRow where
  is_premium : Bool
  premium_until : Option StoredTs
deriving DecidableEq

/-- The users SQLite table, keyed by telegram_id. -/
abbrev Db := String → Option UserRow

/-- One entry of the usage_counts.json file. -/
structure UsageEntry where
  date : Nat
  count : Nat
deriving DecidableEq

/-- The two persisted stores. -/
structure State where
  db : Db
  usage : String → Option UsageEntry

/-- Point update of a finite map (SQLite upsert / dict assignment). -/
def update {α : Type} (m : String → Option α) (k : String) (v : α) :
    String → Option α :=
  fun k' => if k' = k then some v else m k'

def emptyState : State := { db := fun _ => none, usage := fun _ => none }

/-- timedelta(days=d), in seconds. -/
def timedelta_days (d : Nat) : Nat := d * 86400

/-- set_premium: upsert the row with is_premium=1 and
premium_until = utcnow() + timedelta(days=days).  The new premium_until
replaces whatever was stored before (excluded.premium_until). -/
def set_premium (db : Db) (telegram_id : String) (days : Nat) (now : Nat) : Db :=
  let untilTs := now + timedelta_days days
  update db telegram_id { is_premium := true, premium_until := some (.parsed untilTs) }

/-- is_premium: no row yields False; with the flag set and premium_until
present, compare the parsed timestamp with utcnow(), and on a parse
failure fall back to bool(is_premium); otherwise bool(is_premium). -/
def is_premium (db : Db) (telegram_id : String) (now : Nat) : Bool :=
  match db telegram_id with
  | none => false
  | some row =>
    if row.is_premium then
      match row.premium_until with
      | some (.parsed t) => decide (t > now)
      | some (.malformed _) => row.is_premium
      | none => row.is_premium
    else row.is_premium

/-- check_and_increment_usage.  today is date.today(); dailyLimit is the
DAILY_LIMIT environment value (default 10).  Returns the (allowed,
count) pair together with the stores after save_usage. -/
def check_and_increment_usage (st : State) (user_id : String)
    (now today dailyLimit : Nat) : (Bool × Option Nat) × State :=
  if is_premium st.db user_id now then ((true, none), st)
  else
    let entry := (st.usage user_id).getD { date := today, count := 0 }
    let entry := if entry.date ≠ today then { date := today, count := 0 } else entry
    if entry.count ≥ dailyLimit then
      ((false, some entry.count), { st with usage := update st.usage user_id entry })
    else
      let entry' : UsageEntry := { entry with count := entry.count + 1 }
      ((true, some entry'.count), { st with usage := update st.usage user_id entry' })

-- ---------------- rule-based scanner ----------------

/-- SUSPICIOUS_KEYWORDS: each entry is a regex that is in fact a literal
phrase, so matching is substring containment on the lowered text. -/
def SUSPICIOUS_KEYWORDS : List Str :=
  ["wire transfer", "western union", "bank transfer", "send money",
   "urgent", "act now", "verify your account", "click the link",
   "limited time", "winner", "congratulations", "prize", "lottery",
   "claim now", "password", "account suspended", "deposit", "loan",
   "final notice", "verify identity"].map String.toList

/-- URL_SHORTENERS: a literal alternation, matched case-insensitively. -/
def URL_SHORTENERS : List Str :=
  ["bit.ly", "tinyurl", "t.co", "goo.gl", "ow.ly", "tiny.cc", "is.gd",
   "buff.ly"].map String.toList

def isNonSpace (c : Char) : Bool := !c.isWhitespace

/-- re.findall of https?://[^\s]+ : at each position where http:// or
https:// starts and at least one non-whitespace character follows the
scheme, the greedy match is the maximal non-whitespace run from that
position; scanning resumes after the match (non-overlapping).  In the
match branch the head is the h of the scheme, hence non-whitespace, so
dropping the run from the tail equals dropping it from the whole list.
The fuel counts scan steps; every step consumes at least one character,
so fuel equal to the length of the text never runs out. -/
def findUrlsAux : Nat → Str → List Str
  | 0, _ => []
  | _ + 1, [] => []
  | fuel + 1, c :: t =>
    let run := (c :: t).takeWhile isNonSpace
    if ("https://".toList.isPrefixOf (c :: t) && run.length > 8)
        || ("http://".toList.isPrefixOf (c :: t) && run.length > 7) then
      run :: findUrlsAux fuel (t.dropWhile isNonSpace)
    else
      findUrlsAux fuel t

def findUrls (cs : Str) : List Str := findUrlsAux cs.length cs

/-- " ".join / ", ".join. -/
def joinSep (sep : String) (l : List Str) : Str := List.intercalate sep.toList l

/-- Matcher for the shortener search over the joined URLs (re.I is
handled by lowering the haystack; every alternative is lowercase). -/
def hasShortener (joinedUrls : Str) : Bool :=
  URL_SHORTENERS.any (fun d => containsKw (lower joinedUrls) d)

def startsTwoDigits : Str → Bool
  | a :: b :: _ => a.isDigit && b.isDigit
  | _ => false

/-- Position-wise matcher for the dollar-amount pattern: a dollar sign,
an optional single whitespace, then at least two digits. -/
def dollarMatchAt : Str → Bool
  | '$' :: rest =>
    startsTwoDigits rest ||
      (match rest with
       | w :: r => w.isWhitespace && startsTwoDigits r
       | [] => false)
  | _ => false

/-- Position-wise matcher for the USD pattern, case-insensitive: one or
more digits, an optional single whitespace, then the letters usd. -/
def usdMatchAt (cs : Str) : Bool :=
  match cs with
  | c :: _ =>
    c.isDigit &&
      (let rest := cs.dropWhile Char.isDigit
       "usd".toList.isPrefixOf (lower rest) ||
         (match rest with
          | w :: r => w.isWhitespace && "usd".toList.isPrefixOf (lower r)
          | [] => false))
  | [] => false

/-- Position-wise matcher for the urgency pattern: the alternation
reduces to the presence of two consecutive exclamation marks. -/
def bangsAt : Str → Bool
  | '!' :: '!' :: _ => true
  | _ => false

/-- One flag appended by the scanner (the reasons list); payloads keep
the data interpolated into the corresponding f-string. -/
inductive Reason where
  | suspiciousPhrase (kw : Str)
  | urlsFound (joined : Str)
  | shortenedUrl
  | mentionsMoney
  | urgentPunctuation
  | manyUppercase
deriving DecidableEq

/-- The verdict tier of a final score. -/
def verdict_of_score (score : Nat) : String :=
  if score ≥ 60 then "High" else if score ≥ 30 then "Medium" else "Low"

/-- The advice string attached to each tier. -/
def advice_of_score (score : Nat) : String :=
  if score ≥ 60 then "Do NOT click links or reply. Verify with official channels."
  else if score ≥ 30 then "Be cautious — check sender identity and links before interacting."
  else "Appears low risk, but always verify."

structure RuleResult where
  verdict : String
  score : Nat
  reasons : List Reason
  advice : String
  explain : String
  share_text : String
deriving DecidableEq

/-- analyze_text_rule_based.  int(len(text)*0.12) is modelled with exact
arithmetic as len * 12 / 100 (floor). -/
def analyze_text_rule_based (text : Str) : RuleResult :=
  let low := lower text
  let hits := SUSPICIOUS_KEYWORDS.filter (fun kw => containsKw low kw)
  let score := 18 * hits.length
  let reasons := hits.map Reason.suspiciousPhrase
  let urls := findUrls text
  let shortHit := !urls.isEmpty && hasShortener (joinSep " " urls)
  let score := score + (if !urls.isEmpty then 12 else 0) + (if shortHit then 25 else 0)
  let reasons := reasons
    ++ (if !urls.isEmpty then [Reason.urlsFound ((joinSep ", " urls).take 200)] else [])
    ++ (if shortHit then [Reason.shortenedUrl] else [])
  let money := searchAt dollarMatchAt text || searchAt usdMatchAt text
  let score := score + (if money then 12 else 0)
  let reasons := reasons ++ (if money then [Reason.mentionsMoney] else [])
  let bangs := searchAt bangsAt text
  let score := score + (if bangs then 8 else 0)
  let reasons := reasons ++ (if bangs then [Reason.urgentPunctuation] else [])
  let shout := (text.filter Char.isUpper).length > max 6 (text.length * 12 / 100)
  let score := score + (if shout then 6 else 0)
  let reasons := reasons ++ (if shout then [Reason.manyUppercase] else [])
  let score := min 100 score
  let verdict := verdict_of_score score
  let advice := advice_of_score score
  { verdict := verdict
    score := score
    reasons := reasons.take 8
    advice := advice
    explain := s!"Rule-based score {score}/100"
    share_text := s!"{verdict} ({score}/100) — {advice}" }

-- ---------------- OpenAI fallback ----------------

def AMBIGUOUS_LOW : Nat := 15
def AMBIGUOUS_HIGH : Nat := 60

/-- The band test guarding the fallback in handle_message:
AMBIGUOUS_LOW < score < AMBIGUOUS_HIGH. -/
def ambiguousBand (score : Nat) : Bool :=
  decide (AMBIGUOUS_LOW < score) && decide (score < AMBIGUOUS_HIGH)

/-- Outcome of the external ChatCompletion call itself: either the
content of choices[0].message, or any raised exception's message
(covering transport errors and unparseable responses alike). -/
inductive ApiResult where
  | success (content : Str)
  | failure (msg : String)

/-- The dict analyze_with_openai returns: ok with the stripped raw text,
or an error record (which has no ok key, hence is treated as falsy by
the caller). -/
inductive AiOutcome where
  | ok (raw : Str)
  | err (error message : String)
deriving DecidableEq

/-- analyze_with_openai: without a configured key, the no_openai error;
otherwise the call is made and its exceptions become openai_error. -/
def analyze_with_openai (openaiKey : Option String) (api : Str → ApiResult)
    (text : Str) : AiOutcome :=
  match openaiKey with
  | none => .err "no_openai" "OpenAI API key not configured."
  | some _ =>
    match api text with
    | .success content => .ok (stripCh content)
    | .failure msg => .err "openai_error" msg

-- ---------------- message handler ----------------

/-- The reply handle_message sends back for one inbound message. -/
inductive Reply where
  | needText
  | limitReached (limit : Nat)
  | aiText (raw : Str)
  | ruleBased (r : RuleResult)
deriving DecidableEq

structure HandleResult where
  reply : Reply
  fallbackInvoked : Bool
  state : State

/-- handle_message: strip the text, reject empty input, consume quota,
score, and inside the ambiguous band attempt the OpenAI fallback,
replying with its raw answer on success and with the rule-based result
otherwise.  fallbackInvoked records whether analyze_with_openai ran. -/
def handle_message (st : State) (uid : String) (rawText : Str)
    (now today dailyLimit : Nat) (openaiKey : Option String)
    (api : Str → ApiResult) : HandleResult :=
  let text := stripCh rawText
  if text.isEmpty then { reply := .needText, fallbackInvoked := false, state := st }
  else
    let res := check_and_increment_usage st uid now today dailyLimit
    if !res.1.1 then
      { reply := .limitReached dailyLimit, fallbackInvoked := false, state := res.2 }
    else
      let rule := analyze_text_rule_based text
      if ambiguousBand rule.score then
        match analyze_with_openai openaiKey api text with
        | .ok raw => { reply := .aiText raw, fallbackInvoked := true, state := res.2 }
        | .err _ _ => { reply := .ruleBased rule, fallbackInvoked := true, state := res.2 }
      else { reply := .ruleBased rule, fallbackInvoked := false, state := res.2 }

-- ---------------- concrete data for the claims ----------------

/-- The example text of the end-to-end claim. -/
def c8text : Str :=
  "URGENT!! Verify your account now or it will be suspended. Click http://bit.ly/xyz".toList

/-- A users table holding one row whose premium flag is cleared although
a future premium_until is stored. -/
def dbFlagClear : Db :=
  fun k => if k = "bob" then
    some { is_premium := false, premium_until := some (.parsed 100) } else none

/-- A users table holding one row whose premium flag is set but whose
premium_until is NULL. -/
def dbNoTs : Db :=
  fun k => if k = "carol" then
    some { is_premium := true, premium_until := none } else none

/-- A users table where alice has 10 days of premium left at time
tNow. -/
def tNow : Nat := 1000000

def dbAlice : Db :=
  fun k => if k = "alice" then
    some { is_premium := true, premium_until := some (.parsed (tNow + timedelta_days 10)) }
  else none

/-- An external call oracle whose every call fails in transport. -/
def apiDown : Str → ApiResult := fun _ => .failure "connection refused"

/-- A state holding one usage record from day 5 with count 7, for a
user with no premium row. -/
def stYesterday : State :=
  { db := fun _ => none,
    usage := fun k => if k = "u" then some { date := 5, count := 7 } else none }

/-- Repeated quota checks from a given state: iterateChecks k is the
state after k calls of check_and_increment_usage for the same user on
the same day. -/
def iterateChecks (st : State) (uid : String) (now today limit : Nat) : Nat → State
  | 0 => st
  | k + 1 =>
    (check_and_increment_usage (iterateChecks st uid now today limit k)
      uid now today limit).2

/-- The quota invariant: every stored count is at most the limit. -/
def usageInv (st : State) (limit : Nat) : Prop :=
  ∀ uid e, st.usage uid = some e → e.count ≤ limit

-- ---------------- helper lemmas ----------------

theorem update_self {α : Type} (m : String → Option α) (k : String) (v : α) :
    update m k v k = some v := by
  simp [update]

theorem check_db_eq (st : State) (uid : String) (now today limit : Nat) :
    (check_and_increment_usage st uid now today limit).2.db = st.db := by
  unfold check_and_increment_usage
  dsimp only
  split_ifs <;> rfl

theorem usageInv_update (st : State) (limit : Nat) (hinv : usageInv st limit)
    (uid : String) (e : UsageEntry) (he : e.count ≤ limit) :
    usageInv { st with usage := update st.usage uid e } limit := by
  intro u e' h
  simp only [update] at h
  split_ifs at h with hu
  · obtain rfl := Option.some.inj h
    exact he
  · exact hinv u e' h

/-- A non-premium check on a same-day record (or no record, with count
read as 0) strictly below the limit: allowed, count incremented and
persisted, users table untouched. -/
theorem check_step_allowed (st : State) (uid : String) (now today limit c : Nat)
    (hprem : is_premium st.db uid now = false)
    (hu : st.usage uid = none ∧ c = 0 ∨
      st.usage uid = some { date := today, count := c })
    (hc : c < limit) :
    (check_and_increment_usage st uid now today limit).1 = (true, some (c + 1)) ∧
    (check_and_increment_usage st uid now today limit).2.usage uid
      = some { date := today, count := c + 1 } ∧
    (check_and_increment_usage st uid now today limit).2.db = st.db := by
  unfold check_and_increment_usage
  rcases hu with ⟨h0, rfl⟩ | hs
  · simp [hprem, h0, update_self, Nat.not_le.mpr hc]
  · simp [hprem, hs, update_self, Nat.not_le.mpr hc]

/-- A non-premium check on a same-day record at or above the limit:
blocked, count returned and persisted unchanged. -/
theorem check_step_blocked (st : State) (uid : String) (now today limit c : Nat)
    (hprem : is_premium st.db uid now = false)
    (hu : st.usage uid = none ∧ c = 0 ∨
      st.usage uid = some { date := today, count := c })
    (hc : limit ≤ c) :
    (check_and_increment_usage st uid now today limit).1 = (false, some c) ∧
    (check_and_increment_usage st uid now today limit).2.usage uid
      = some { date := today, count := c } := by
  unfold check_and_increment_usage
  rcases hu with ⟨h0, rfl⟩ | hs
  · simp [hprem, h0, update_self, hc]
  · simp [hprem, hs, update_self, hc]

/-- After k same-day checks from a fresh non-premium user the users
table is unchanged and the stored count is exactly k, as long as
k is at most the limit. -/
theorem iterateChecks_usage (st : State) (uid : String) (now today limit : Nat)
    (hprem : is_premium st.db uid now = false) (h0 : st.usage uid = none) :
    ∀ k, k ≤ limit →
      (iterateChecks st uid now today limit k).db = st.db ∧
      ((iterateChecks st uid now today limit k).usage uid
        = if k = 0 then none else some { date := today, count := k }) := by
  intro k
  induction k with
  | zero => exact fun _ => ⟨rfl, by simp [iterateChecks, h0]⟩
  | succ n ih =>
    intro hk
    have hn := ih (by omega)
    have hstep := check_step_allowed (iterateChecks st uid now today limit n)
      uid now today limit n
      (by rw [hn.1]; exact hprem)
      (by
        by_cases h : n = 0
        · exact Or.inl ⟨by rw [hn.2]; simp [h], h⟩
        · exact Or.inr (by rw [hn.2]; simp [h]))
      (by omega)
    simp only [iterateChecks]
    refine ⟨by rw [hstep.2.2, hn.1], ?_⟩
    rw [hstep.2.1]
    simp

-- ---------------- claim theorems ----------------

/-- C1: the claim that set_premium stacks days onto an existing future
premium_until is violated by the code: granting 30 days to alice, who
has 10 days left at tNow, stores premium_until = tNow + 30 days, not
tNow + 40 days.  The stored value is computed from utcnow() alone and
the upsert overwrites the previous premium_until. -/
theorem c1_set_premium_overwrites :
    dbAlice "alice"
        = some { is_premium := true,
                 premium_until := some (.parsed (tNow + timedelta_days 10)) } ∧
    set_premium dbAlice "alice" 30 tNow "alice"
        = some { is_premium := true,
                 premium_until := some (.parsed (tNow + timedelta_days 30)) } ∧
    tNow + timedelta_days 30 ≠ tNow + timedelta_days 40 := by
  refine ⟨rfl, ?_, by decide⟩
  simp [set_premium, update_self]

/-- C3: the verdict tiers of a score in 0..100 are exactly High for
60 and above, Medium for 30..59 and Low below 30, with the stated
boundary values, and analyze_text_rule_based derives its verdict from
its final score through this mapping. -/
theorem c3_verdict_thresholds (s : Nat) (hs : s ≤ 100) :
    ((verdict_of_score s = "High") ↔ 60 ≤ s) ∧
    ((verdict_of_score s = "Medium") ↔ 30 ≤ s ∧ s < 60) ∧
    ((verdict_of_score s = "Low") ↔ s < 30) ∧
    verdict_of_score 59 = "Medium" ∧ verdict_of_score 60 = "High" ∧
    verdict_of_score 29 = "Low" ∧ verdict_of_score 30 = "Medium" ∧
    ∀ t : Str, (analyze_text_rule_based t).verdict
      = verdict_of_score (analyze_text_rule_based t).score := by
  refine ⟨?_, ?_, ?_, by decide, by decide, by decide, by decide, fun t => rfl⟩
  · unfold verdict_of_score
    split_ifs with h1 h2
    · exact iff_of_true rfl h1
    · exact iff_of_false (by decide) h1
    · exact iff_of_false (by decide) h1
  · unfold verdict_of_score
    split_ifs with h1 h2
    · exact iff_of_false (by decide) (by omega)
    · exact iff_of_true rfl (by omega)
    · exact iff_of_false (by decide) (by omega)
  · unfold verdict_of_score
    split_ifs with h1 h2
    · exact iff_of_false (by decide) (by omega)
    · exact iff_of_false (by decide) (by omega)
    · exact iff_of_true rfl (by omega)

/-- C3 witness: the theorem applied at score 59. -/
theorem c3_verdict_thresholds_witness :
    (59 : Nat) ≤ 100 ∧ verdict_of_score 59 = "Medium" :=
  ⟨by decide, (c3_verdict_thresholds 59 (by decide)).2.2.2.1⟩

/-- C6 counterexample: the claimed iff fails on rows the function can
receive.  bob has a record with premium_until = 100, strictly in the
future at now = 0, yet is_premium is false because the stored flag is
cleared; carol has a record with NO premium_until at all, yet
is_premium is true because the flag is set. -/
theorem c6_counterexample :
    (dbFlagClear "bob"
        = some { is_premium := false, premium_until := some (.parsed 100) } ∧
      (100 : Nat) > 0 ∧
      is_premium dbFlagClear "bob" 0 = false) ∧
    (dbNoTs "carol" = some { is_premium := true, premium_until := none } ∧
      is_premium dbNoTs "carol" 0 = true) := by
  decide

/-- C6 amended: is_premium is true iff a record exists, its stored
premium flag is set, and its premium_until, whenever present and
parseable, is strictly in the future; an absent record yields false,
and an absent or malformed premium_until with the flag set degrades to
the flag itself, never raising. -/
theorem c6_is_premium_characterization (db : Db) (uid : String) (now : Nat) :
    is_premium db uid now = true ↔
      ∃ row, db uid = some row ∧ row.is_premium = true ∧
        ∀ t, row.premium_until = some (.parsed t) → now < t := by
  unfold is_premium
  cases h : db uid with
  | none => simp
  | some row =>
    by_cases hip : row.is_premium = true
    · cases hp : row.premium_until with
      | none => simp [hip, hp]
      | some ts =>
        cases ts with
        | parsed t => simp [hip, hp, Nat.lt_iff_add_one_le]
        | malformed raw => simp [hip, hp]
    · simp [Bool.not_eq_true] at hip
      simp [hip]

/-- C8 counterexample: on the example text the rule-based score is not
99, because the phrase account suspended does not occur contiguously in
the lowered text (the text reads account now or it will be suspended),
so only two keyword patterns match, not three. -/
theorem c8_counterexample :
    (analyze_text_rule_based c8text).score ≠ 99 ∧
    containsKw (lower c8text) ("account suspended".toList) = false ∧
    (SUSPICIOUS_KEYWORDS.filter (fun kw => containsKw (lower c8text) kw)).length = 2 := by
  decide

/-- C8 amended: the example text matches the keywords urgent and verify
your account for 36 points, gains 12 for the URL, 25 for the bit.ly
shortener and 8 for the double exclamation mark, totalling 81; the
verdict is High, and the score is outside the ambiguous band, so on a
fresh state the fallback is not invoked. -/
theorem c8_example_end_to_end :
    (analyze_text_rule_based c8text).score = 81 ∧
    (analyze_text_rule_based c8text).verdict = "High" ∧
    (analyze_text_rule_based c8text).reasons =
      [.suspiciousPhrase ("urgent".toList),
       .suspiciousPhrase ("verify your account".toList),
       .urlsFound ("http://bit.ly/xyz".toList),
       .shortenedUrl, .urgentPunctuation] ∧
    ambiguousBand (analyze_text_rule_based c8text).score = false ∧
    (handle_message emptyState "u" c8text 0 0 10 none
        (fun _ => .failure "down")).fallbackInvoked = false := by
  decide

/-- C4: from no usage record, the k-th same-day check of a non-premium
user for k = 1..limit returns allowed with count k, and the following
check returns blocked with count limit, persisting the stored count
unchanged at limit. -/
theorem c4_daily_quota (st : State) (uid : String) (now today limit : Nat)
    (hprem : is_premium st.db uid now = false)
    (h0 : st.usage uid = none) :
    (∀ k, 1 ≤ k → k ≤ limit →
      (check_and_increment_usage (iterateChecks st uid now today limit (k - 1))
          uid now today limit).1 = (true, some k)) ∧
    (check_and_increment_usage (iterateChecks st uid now today limit limit)
        uid now today limit).1 = (false, some limit) ∧
    (check_and_increment_usage (iterateChecks st uid now today limit limit)
        uid now today limit).2.usage uid
      = some { date := today, count := limit } := by
  have husage := iterateChecks_usage st uid now today limit hprem h0
  have hyp : ∀ m, m ≤ limit →
      (iterateChecks st uid now today limit m).usage uid = none ∧ m = 0 ∨
      (iterateChecks st uid now today limit m).usage uid
        = some { date := today, count := m } := by
    intro m hm
    by_cases h : m = 0
    · exact Or.inl ⟨by rw [(husage m hm).2]; simp [h], h⟩
    · exact Or.inr (by rw [(husage m hm).2]; simp [h])
  refine ⟨?_, ?_, ?_⟩
  · intro k hk1 hk2
    have hstep := check_step_allowed (iterateChecks st uid now today limit (k - 1))
      uid now today limit (k - 1)
      (by rw [(husage (k - 1) (by omega)).1]; exact hprem)
      (hyp (k - 1) (by omega)) (by omega)
    have he : k - 1 + 1 = k := by omega
    rw [he] at hstep
    exact hstep.1
  · exact (check_step_blocked (iterateChecks st uid now today limit limit)
      uid now today limit limit
      (by rw [(husage limit le_rfl).1]; exact hprem)
      (hyp limit le_rfl) le_rfl).1
  · exact (check_step_blocked (iterateChecks st uid now today limit limit)
      uid now today limit limit
      (by rw [(husage limit le_rfl).1]; exact hprem)
      (hyp limit le_rfl) le_rfl).2

/-- C4 witness: with limit 2 from a fresh state, the second check
returns allowed with count 2 and the third returns blocked at 2. -/
theorem c4_daily_quota_witness :
    is_premium emptyState.db "u" 0 = false ∧ emptyState.usage "u" = none ∧
    (check_and_increment_usage (iterateChecks emptyState "u" 0 0 2 (2 - 1))
        "u" 0 0 2).1 = (true, some 2) ∧
    (check_and_increment_usage (iterateChecks emptyState "u" 0 0 2 2)
        "u" 0 0 2).1 = (false, some 2) :=
  ⟨by decide, rfl,
   (c4_daily_quota emptyState "u" 0 0 2 (by decide) rfl).1 2 (by decide) (by decide),
   (c4_daily_quota emptyState "u" 0 0 2 (by decide) rfl).2.1⟩

/-- C7: a stored record from another day is treated exactly like no
record on the first check of the new day: the count resets, increments
to 1, the check is allowed, and the outcome coincides with running the
same check on the state with the record erased. -/
theorem c7_day_rollover (st : State) (uid : String) (now today yday n limit : Nat)
    (hprem : is_premium st.db uid now = false)
    (hstored : st.usage uid = some { date := yday, count := n })
    (hne : yday ≠ today) (hlim : 1 ≤ limit) :
    (check_and_increment_usage st uid now today limit).1 = (true, some 1) ∧
    (check_and_increment_usage st uid now today limit).2.usage uid
      = some { date := today, count := 1 } ∧
    (check_and_increment_usage st uid now today limit).1
      = (check_and_increment_usage
          { db := st.db, usage := fun k => if k = uid then none else st.usage k }
          uid now today limit).1 ∧
    (check_and_increment_usage st uid now today limit).2.usage uid
      = (check_and_increment_usage
          { db := st.db, usage := fun k => if k = uid then none else st.usage k }
          uid now today limit).2.usage uid := by
  have hfresh := check_step_allowed
    { db := st.db, usage := fun k => if k = uid then none else st.usage k }
    uid now today limit 0 hprem (Or.inl ⟨by simp, rfl⟩) (by omega)
  have hmain : (check_and_increment_usage st uid now today limit).1 = (true, some 1) ∧
      (check_and_increment_usage st uid now today limit).2.usage uid
        = some { date := today, count := 1 } := by
    unfold check_and_increment_usage
    simp [hprem, hstored, hne, update_self, Nat.lt_of_lt_of_le Nat.zero_lt_one hlim,
      Nat.not_le.mpr (Nat.lt_of_lt_of_le Nat.zero_lt_one hlim)]
  refine ⟨hmain.1, hmain.2, ?_, ?_⟩
  · rw [hmain.1, hfresh.1]
  · rw [hmain.2, hfresh.2.1]

/-- C7 witness: a record from day 5 with count 7, checked on day 6. -/
theorem c7_day_rollover_witness :
    is_premium stYesterday.db "u" 0 = false ∧
    stYesterday.usage "u" = some { date := 5, count := 7 } ∧
    (5 : Nat) ≠ 6 ∧ (1 : Nat) ≤ 10 ∧
    (check_and_increment_usage stYesterday "u" 0 6 10).1 = (true, some 1) :=
  ⟨by decide, by decide, by decide, by decide,
   (c7_day_rollover stYesterday "u" 0 6 5 7 10 (by decide) (by decide)
      (by decide) (by decide)).1⟩

/-- C9: quota checks preserve the invariant that every stored count is
at most the limit, every count a check returns is at most the limit,
and the all-empty usage store satisfies the invariant, so counts above
the limit are unreachable from it. -/
theorem c9_usage_invariant (st : State) (uid : String) (now today limit : Nat)
    (hinv : usageInv st limit) :
    usageInv (check_and_increment_usage st uid now today limit).2 limit ∧
    (∀ c, (check_and_increment_usage st uid now today limit).1.2 = some c →
      c ≤ limit) ∧
    ∀ db : Db, usageInv { db := db, usage := fun _ => none } limit := by
  have hentry : ∀ e : UsageEntry,
      (st.usage uid = none ∧ e = { date := today, count := 0 } ∨ st.usage uid = some e) →
      e.count ≤ limit := by
    rintro e (⟨_, rfl⟩ | h)
    · exact Nat.zero_le _
    · exact hinv uid e h
  refine ⟨?_, ?_, fun db u e h => by simp at h⟩
  all_goals
    unfold check_and_increment_usage
    by_cases hp : is_premium st.db uid now = true
  · simpa [hp] using hinv
  · -- non-premium branch, invariant on the written store
    simp only [hp]
    set e0 := (st.usage uid).getD { date := today, count := 0 } with he0
    have h0 : st.usage uid = none ∧ e0 = { date := today, count := 0 } ∨
        st.usage uid = some e0 := by
      cases h : st.usage uid with
      | none => exact Or.inl ⟨rfl, by rw [he0, h]; rfl⟩
      | some e => exact Or.inr (by rw [he0, h]; rfl)
    set e1 := if e0.date ≠ today then ({ date := today, count := 0 } : UsageEntry)
      else e0 with he1
    have h1 : e1.count ≤ limit := by
      rw [he1]
      split_ifs
      · exact Nat.zero_le _
      · exact hentry e0 h0
    simp only [Bool.false_eq_true, if_false]
    split_ifs with hc
    · exact usageInv_update st limit hinv uid e1 h1
    · exact usageInv_update st limit hinv uid { e1 with count := e1.count + 1 }
        (by simpa using Nat.not_le.mp hc)
  · simp [hp]
  · -- non-premium branch, returned count is bounded
    simp only [hp]
    set e0 := (st.usage uid).getD { date := today, count := 0 } with he0
    have h0 : st.usage uid = none ∧ e0 = { date := today, count := 0 } ∨
        st.usage uid = some e0 := by
      cases h : st.usage uid with
      | none => exact Or.inl ⟨rfl, by rw [he0, h]; rfl⟩
      | some e => exact Or.inr (by rw [he0, h]; rfl)
    set e1 := if e0.date ≠ today then ({ date := today, count := 0 } : UsageEntry)
      else e0 with he1
    have h1 : e1.count ≤ limit := by
      rw [he1]
      split_ifs
      · exact Nat.zero_le _
      · exact hentry e0 h0
    simp only [Bool.false_eq_true, if_false]
    split_ifs with hc
    · intro c hco
      obtain rfl := Option.some.inj hco
      exact h1
    · intro c hco
      obtain rfl := Option.some.inj hco
      simpa using Nat.not_le.mp hc

/-- C9 witness: the empty store satisfies the invariant and still does
after one check with limit 10. -/
theorem c9_usage_invariant_witness :
    usageInv emptyState 10 ∧
    usageInv (check_and_increment_usage emptyState "u" 0 0 10).2 10 :=
  ⟨fun u e h => by simp [emptyState] at h,
   (c9_usage_invariant emptyState "u" 0 0 10
      (fun u e h => by simp [emptyState] at h)).1⟩

/-- C10: right after set_premium with a positive day count, and with the
clock unchanged, is_premium is true, so a quota check returns allowed
with no count and leaves both stores exactly as they were. -/
theorem c10_grant_then_bypass (st : State) (uid : String)
    (days now today limit : Nat) (hdays : 0 < days) :
    is_premium (set_premium st.db uid days now) uid now = true ∧
    check_and_increment_usage { db := set_premium st.db uid days now, usage := st.usage }
        uid now today limit
      = ((true, none), { db := set_premium st.db uid days now, usage := st.usage }) := by
  have h1 : is_premium (set_premium st.db uid days now) uid now = true := by
    unfold is_premium set_premium
    rw [update_self]
    simp [timedelta_days]
    omega
  refine ⟨h1, ?_⟩
  unfold check_and_increment_usage
  simp [h1]

/-- C10 witness: granting 30 days at time 0 makes the user premium at
time 0. -/
theorem c10_grant_then_bypass_witness :
    (0 : Nat) < 30 ∧
    is_premium (set_premium emptyState.db "u" 30 0) "u" 0 = true :=
  ⟨by decide, (c10_grant_then_bypass emptyState "u" 30 0 0 10 (by decide)).1⟩

/-- C2: with non-empty stripped text and the quota check allowed, the
OpenAI fallback is attempted iff the rule-based score lies strictly
between 15 and 60; the band test is exactly 15 < s < 60, with scores 15
and 60 excluded and 16 and 59 included. -/
theorem c2_fallback_iff_ambiguous_band (st : State) (uid : String) (rawText : Str)
    (now today limit : Nat) (openaiKey : Option String) (api : Str → ApiResult)
    (hne : (stripCh rawText).isEmpty = false)
    (hok : (check_and_increment_usage st uid now today limit).1.1 = true) :
    (handle_message st uid rawText now today limit openaiKey api).fallbackInvoked
      = ambiguousBand (analyze_text_rule_based (stripCh rawText)).score ∧
    (∀ s, ambiguousBand s = true ↔ 15 < s ∧ s < 60) ∧
    ambiguousBand 15 = false ∧ ambiguousBand 16 = true ∧
    ambiguousBand 59 = true ∧ ambiguousBand 60 = false := by
  refine ⟨?_, ?_, by decide, by decide, by decide, by decide⟩
  · unfold handle_message
    simp only [hne, Bool.false_eq_true, if_false, hok, Bool.not_true]
    by_cases hb : ambiguousBand (analyze_text_rule_based (stripCh rawText)).score = true
    · simp only [hb, if_true]
      cases h : analyze_with_openai openaiKey api (stripCh rawText) <;> simp
    · simp only [Bool.not_eq_true] at hb
      simp [hb]
  · intro s
    simp [ambiguousBand, AMBIGUOUS_LOW, AMBIGUOUS_HIGH]

/-- C2 witness: a non-empty text on a fresh state with limit 10. -/
theorem c2_fallback_iff_ambiguous_band_witness :
    (stripCh ("hello".toList)).isEmpty = false ∧
    (check_and_increment_usage emptyState "u" 0 0 10).1.1 = true ∧
    (handle_message emptyState "u" ("hello".toList) 0 0 10 none apiDown).fallbackInvoked
      = ambiguousBand (analyze_text_rule_based (stripCh ("hello".toList))).score :=
  ⟨by decide, by decide,
   (c2_fallback_iff_ambiguous_band emptyState "u" ("hello".toList) 0 0 10 none apiDown
      (by decide) (by decide)).1⟩

/-- C5: inside the ambiguous band, a fallback success replaces the reply
with the raw fallback answer, and a fallback failure of any kind (no
key configured, transport error, unparseable response) leaves the reply
exactly the rule-based result computed before the attempt, with no
error about scoring surfaced to the user. -/
theorem c5_fallback_replace_or_degrade (st : State) (uid : String) (rawText : Str)
    (now today limit : Nat) (openaiKey : Option String) (api : Str → ApiResult)
    (hne : (stripCh rawText).isEmpty = false)
    (hok : (check_and_increment_usage st uid now today limit).1.1 = true)
    (hband : ambiguousBand (analyze_text_rule_based (stripCh rawText)).score = true) :
    (∀ raw, analyze_with_openai openaiKey api (stripCh rawText) = .ok raw →
      (handle_message st uid rawText now today limit openaiKey api).reply
        = .aiText raw) ∧
    (∀ e m, analyze_with_openai openaiKey api (stripCh rawText) = .err e m →
      (handle_message st uid rawText now today limit openaiKey api).reply
        = .ruleBased (analyze_text_rule_based (stripCh rawText))) := by
  constructor
  · intro raw h
    unfold handle_message
    simp only [hne, Bool.false_eq_true, if_false, hok, Bool.not_true, hband, if_true, h]
  · intro e m h
    unfold handle_message
    simp only [hne, Bool.false_eq_true, if_false, hok, Bool.not_true, hband, if_true, h]

/-- C5 witness: the text urgent scores 18, inside the band; with no key
configured the fallback fails as no_openai and the reply is the
rule-based result. -/
theorem c5_fallback_replace_or_degrade_witness :
    (stripCh ("urgent".toList)).isEmpty = false ∧
    (check_and_increment_usage emptyState "u" 0 0 10).1.1 = true ∧
    ambiguousBand (analyze_text_rule_based (stripCh ("urgent".toList))).score = true ∧
    (handle_message emptyState "u" ("urgent".toList) 0 0 10 none apiDown).reply
      = .ruleBased (analyze_text_rule_based (stripCh ("urgent".toList))) :=
  ⟨by decide, by decide, by decide,
   (c5_fallback_replace_or_degrade emptyState "u" ("urgent".toList) 0 0 10 none apiDown
      (by decide) (by decide) (by decide)).2
     "no_openai" "OpenAI API key not configured." rfl⟩

end ScamShield
